import Mathlib

/-!
# Verification of the GeoJSON Point Filter pipeline (src/Home.py)

Shallow embedding of the coordinate-cleaning and classification pipeline of
`src/Home.py`: the `clean_coord` parser, the `zero_mask` / `valid_range_mask` /
`valid_mask` classification, the `df_valid` / `df_zero` / `df_invalid`
partition, and the containment step (`unary_union` + shapely `within`)
attaching a `location_status` to each valid row.

Numeric coordinate values are modelled exactly as unnormalised decimals
`DecNum` (an integer mantissa and a power-of-ten denominator): every value
`float()` produces from the pipeline's decimal coordinate texts is such a
decimal, and `DecNum.toRat` gives its exact rational value.  A cleaned cell is
`Option DecNum`, where `none` stands for pandas `NaN` (a null input, or a
failed conversion).  This is faithful for classification: in the Python code a
`NaN` fails the `== 0` test, fails `between`, and fails `notna()`, exactly as
`none` fails the corresponding tests below.  Comparisons on `DecNum` are the
exact value comparisons (proved equivalent to the rational ones in
`DecNum.ble_iff` / `DecNum.blt_iff` / `DecNum.beq_iff`), matching IEEE
comparison of the parsed values on the magnitudes involved.
-/

/-- An exact decimal number `num / 10 ^ exp`, the form `float()` returns on
the pipeline's decimal coordinate texts. -/
structure DecNum where
  num : Int
  exp : Nat
deriving DecidableEq, Repr

/-- The exact rational value of a decimal. -/
def DecNum.toRat (d : DecNum) : ℚ := (d.num : ℚ) / 10 ^ d.exp

/-- Value comparison `a ≤ b` on decimals (cross-multiplied). -/
def DecNum.ble (a b : DecNum) : Bool :=
  decide (a.num * 10 ^ b.exp ≤ b.num * 10 ^ a.exp)

/-- Value comparison `a < b` on decimals (cross-multiplied). -/
def DecNum.blt (a b : DecNum) : Bool :=
  decide (a.num * 10 ^ b.exp < b.num * 10 ^ a.exp)

/-- Value equality `a == b` on decimals (cross-multiplied); this is Python
`==` on the parsed numbers, e.g. `0.0 == 0` holds. -/
def DecNum.beq (a b : DecNum) : Bool :=
  decide (a.num * 10 ^ b.exp = b.num * 10 ^ a.exp)

/-- ASCII whitespace recognised by Python `str.strip` (on the ASCII range). -/
def isSpaceChar (c : Char) : Bool :=
  c = ' ' || c = '\t' || c = '\n' || c = '\r' || c = '\x0b' || c = '\x0c'

/-- Strip leading and trailing whitespace from a character list; models
Python `str.strip()`. -/
def stripChars (cs : List Char) : List Char :=
  ((cs.dropWhile isSpaceChar).reverse.dropWhile isSpaceChar).reverse

/-- Replace every comma character by a dot; models Python
`str.replace(',', '.')` (the pattern is a single character, so substring
replacement is a per-character map). -/
def commaToDot (cs : List Char) : List Char :=
  cs.map (fun c => if c = ',' then '.' else c)

/-- Decimal value of a digit list (most significant first). -/
def digitsToNat (cs : List Char) : Nat :=
  cs.foldl (fun a c => a * 10 + (c.toNat - 48)) 0

/-- Parse an unsigned decimal literal `digits [ '.' digits ]` with at least
one digit; models Python `float()` on the decimal literals the pipeline feeds
it (no exponent, infinity, nan or underscore forms appear among the
coordinate texts of the specification; the non-finite forms would in any case
classify Invalid exactly as a parse failure does). -/
def parseUnsigned (cs : List Char) : Option DecNum :=
  let intPart := cs.takeWhile (·.isDigit)
  let rest := cs.dropWhile (·.isDigit)
  match rest with
  | [] =>
      if intPart.isEmpty then none
      else some ⟨(digitsToNat intPart : Int), 0⟩
  | '.' :: frac =>
      if frac.all (·.isDigit) && !(intPart.isEmpty && frac.isEmpty) then
        some ⟨(digitsToNat intPart * 10 ^ frac.length + digitsToNat frac : Int), frac.length⟩
      else none
  | _ => none

/-- Parse an optionally signed decimal literal; models Python `float()` on
the stripped, comma-normalised text produced by `clean_coord`. -/
def pyFloat (cs : List Char) : Option DecNum :=
  match cs with
  | '-' :: rest => (parseUnsigned rest).map (fun d => ⟨-d.num, d.exp⟩)
  | '+' :: rest => parseUnsigned rest
  | _ => parseUnsigned cs

/-- `clean_coord` from src/Home.py lines 79-85: a null value stays `NaN`;
otherwise strip whitespace, replace every `,` with `.`, and attempt `float()`
conversion, returning `NaN` (`none`) on failure.  A total function: no
exception escapes (`except: return np.nan`). -/
def clean_coord (val : Option String) : Option DecNum :=
  match val with
  | none => none
  | some s => pyFloat (commaToDot (stripChars s.data))

/-- One input row: the raw text of the designated X and Y fields
(`none` is a missing/null CSV cell). -/
structure Record where
  rawX : Option String
  rawY : Option String
deriving DecidableEq, Repr

/-- The cleaned X coordinate of a record (column `x_col` of `df_clean`). -/
def cleanX (r : Record) : Option DecNum := clean_coord r.rawX

/-- The cleaned Y coordinate of a record (column `y_col` of `df_clean`). -/
def cleanY (r : Record) : Option DecNum := clean_coord r.rawY

/-- Pandas `series == c` on one cell: false on `NaN`, value equality
otherwise. -/
def optBeq (v : Option DecNum) (c : DecNum) : Bool :=
  match v with
  | none => false
  | some d => d.beq c

/-- Pandas `Series.between lo hi` on one cell: inclusive on both ends, false
on `NaN`. -/
def betweenOpt (v : Option DecNum) (lo hi : DecNum) : Bool :=
  match v with
  | none => false
  | some d => lo.ble d && d.ble hi

/-- `zero_mask` from src/Home.py line 92: both cleaned coordinates compare
equal to 0 (`NaN == 0` is false in pandas, as is `none` here). -/
def zero_mask (r : Record) : Bool :=
  optBeq (cleanX r) ⟨0, 0⟩ && optBeq (cleanY r) ⟨0, 0⟩

/-- `valid_range_mask` from src/Home.py lines 96-99: longitude within
[-180, 180] and latitude within [-90, 90], inclusive. -/
def valid_range_mask (r : Record) : Bool :=
  betweenOpt (cleanX r) ⟨-180, 0⟩ ⟨180, 0⟩ && betweenOpt (cleanY r) ⟨-90, 0⟩ ⟨90, 0⟩

/-- `valid_mask` from src/Home.py line 101: in range, not the zero pair, and
both coordinates non-NaN. -/
def valid_mask (r : Record) : Bool :=
  valid_range_mask r && !(zero_mask r) && (cleanX r).isSome && (cleanY r).isSome

/-- The mask selecting `df_invalid` (src/Home.py line 106):
`~(valid_mask | zero_mask)` — everything else is invalid. -/
def invalid_mask (r : Record) : Bool :=
  !(valid_mask r || zero_mask r)

/-- `df_valid` from src/Home.py line 104: the rows selected by `valid_mask`,
in original order. -/
def df_valid (rs : List Record) : List Record :=
  rs.filter valid_mask

/-- `df_zero` from src/Home.py line 105: the rows selected by `zero_mask`,
in original order. -/
def df_zero (rs : List Record) : List Record :=
  rs.filter zero_mask

/-- `df_invalid` from src/Home.py line 106: the rows selected by
`~(valid_mask | zero_mask)`, in original order. -/
def df_invalid (rs : List Record) : List Record :=
  rs.filter invalid_mask

/-- The containment tag attached to valid rows
(src/Home.py line 114: `{True: 'Inside', False: 'Outside'}`). -/
inductive ContainmentStatus where
  | Inside
  | Outside
deriving DecidableEq, Repr

/-- The unioned boundary geometry of the containment step, embedded as an
axis-aligned rectangle `[x1, x2] × [y1, y2]` (the shape of every boundary in
the specification's scenarios; `unary_union` of a single rectangular polygon
is the polygon itself). -/
structure Rect where
  x1 : DecNum
  y1 : DecNum
  x2 : DecNum
  y2 : DecNum
deriving DecidableEq, Repr

/-- Shapely `Point(x, y).within(polygon)` for a rectangular polygon: true
exactly when the point lies in the open interior — a point on the boundary of
the polygon is not `within` it (DE-9IM: `within` requires the interiors to
intersect and allows no intersection with the exterior; a point on the
boundary fails the interior condition). -/
def withinRect (x y : DecNum) (b : Rect) : Bool :=
  DecNum.blt b.x1 x && DecNum.blt x b.x2 && DecNum.blt b.y1 y && DecNum.blt y b.y2

/-- A point lying exactly on the boundary (edges and corners) of the
rectangle `[x1, x2] × [y1, y2]`, stated with the same exact value comparisons
used by the containment step. -/
def onRectBoundary (x y : DecNum) (b : Rect) : Bool :=
  ((DecNum.beq x b.x1 || DecNum.beq x b.x2) && DecNum.ble b.y1 y && DecNum.ble y b.y2)
    || ((DecNum.beq y b.y1 || DecNum.beq y b.y2) && DecNum.ble b.x1 x && DecNum.ble x b.x2)

/-- `location_status` from src/Home.py lines 110-114: `within` mapped through
`{True: 'Inside', False: 'Outside'}`.  The point is built from the cleaned
coordinates of a valid row (always present there, so the `getD` default is
never used on the valid partition). -/
def location_status (r : Record) (b : Rect) : ContainmentStatus :=
  if withinRect ((cleanX r).getD ⟨0, 0⟩) ((cleanY r).getD ⟨0, 0⟩) b then
    ContainmentStatus.Inside
  else
    ContainmentStatus.Outside

/-- The result dictionary stored in session state on the success path
(src/Home.py lines 117-124): the tagged valid rows, the invalid and zero
partitions, and the original total row count. -/
structure ResultBundle where
  gdf_points : List (Record × ContainmentStatus)
  df_invalid : List Record
  df_zero : List Record
  df_raw_len : Nat
deriving DecidableEq, Repr

/-- Outcome of one run of the processing block (src/Home.py lines 41-126):
the GeoJSON read fails and the run stops (`st.error` + `st.stop`), or the
valid partition is empty and a distinguished message is stored, or a full
result bundle is stored. -/
inductive PipelineOutcome where
  | fatalError (msg : String)
  | noValidData (msg : String)
  | results (bundle : ResultBundle)
deriving DecidableEq, Repr

/-- True exactly on the `results` outcome. -/
def PipelineOutcome.isResults : PipelineOutcome → Bool
  | .results _ => true
  | _ => false

/-- The analysis step (src/Home.py lines 104-126): partition the rows; if the
valid partition is non-empty, tag each valid row with its `location_status`
and bundle the partitions with the raw row count; otherwise store the
"no valid data" message, running no containment test. -/
def runAnalysis (rs : List Record) (b : Rect) : PipelineOutcome :=
  let dv := df_valid rs
  if dv.isEmpty then
    PipelineOutcome.noValidData
      "No valid data found (check if all your data is 0,0 or invalid)."
  else
    PipelineOutcome.results
      { gdf_points := dv.map (fun r => (r, location_status r b))
        df_invalid := df_invalid rs
        df_zero := df_zero rs
        df_raw_len := rs.length }

/-- The processing block (src/Home.py lines 41-126).  The boundary input is
the outcome of the external GeoJSON reader (`gpd.read_file`, lines 44-52),
modelled from the spec: a missing, empty or malformed boundary is a read
failure (`Except.error`), which is reported (`st.error(f"Error reading
GeoJSON: {e}")`) and stops the run (`st.stop()`) before any classification;
otherwise the analysis runs on the records. -/
def processFiles (geo : Except String Rect) (rs : List Record) : PipelineOutcome :=
  match geo with
  | Except.error e => PipelineOutcome.fatalError ("Error reading GeoJSON: " ++ e)
  | Except.ok b => runAnalysis rs b

/-! ## Bridging lemmas: exact decimal comparisons against rational values -/

/-- `ble` decides `≤` of the rational values. -/
theorem DecNum.ble_iff (a b : DecNum) : (a.ble b = true) ↔ a.toRat ≤ b.toRat := by
  simp only [DecNum.ble, decide_eq_true_eq, DecNum.toRat]
  rw [div_le_div_iff₀ (by positivity) (by positivity)]
  constructor <;> intro h <;> exact_mod_cast h

/-- `blt` decides `<` of the rational values. -/
theorem DecNum.blt_iff (a b : DecNum) : (a.blt b = true) ↔ a.toRat < b.toRat := by
  simp only [DecNum.blt, decide_eq_true_eq, DecNum.toRat]
  rw [div_lt_div_iff₀ (by positivity) (by positivity)]
  constructor <;> intro h <;> exact_mod_cast h

/-- `beq` decides equality of the rational values. -/
theorem DecNum.beq_iff (a b : DecNum) : (a.beq b = true) ↔ a.toRat = b.toRat := by
  simp only [DecNum.beq, decide_eq_true_eq, DecNum.toRat]
  rw [div_eq_div_iff (by positivity : (0:ℚ) < 10 ^ a.exp).ne'
    (by positivity : (0:ℚ) < 10 ^ b.exp).ne']
  constructor <;> intro h <;> exact_mod_cast h

/-- The rational value of an integral decimal. -/
theorem DecNum.toRat_int (n : Int) : (DecNum.mk n 0).toRat = (n : ℚ) := by
  simp [DecNum.toRat]

/-- The rational value of the zero decimal. -/
theorem DecNum.toRat_zero : (DecNum.mk 0 0).toRat = 0 := by
  simp [DecNum.toRat]

/-! ## Helper lemmas on the masks -/

/-- A row is never both valid and zero: `valid_mask` contains `~zero_mask`. -/
theorem valid_mask_not_zero (r : Record) : ¬(valid_mask r = true ∧ zero_mask r = true) := by
  rintro ⟨hv, hz⟩
  simp [valid_mask, hz] at hv

/-- Every row satisfies exactly one of the three masks. -/
theorem mask_trichotomy (r : Record) :
    (valid_mask r = true ∧ zero_mask r = false ∧ invalid_mask r = false)
      ∨ (valid_mask r = false ∧ zero_mask r = true ∧ invalid_mask r = false)
      ∨ (valid_mask r = false ∧ zero_mask r = false ∧ invalid_mask r = true) := by
  cases hv : valid_mask r
  · cases hz : zero_mask r
    · exact Or.inr (Or.inr ⟨rfl, rfl, by simp [invalid_mask, hv, hz]⟩)
    · exact Or.inr (Or.inl ⟨rfl, rfl, by simp [invalid_mask, hv, hz]⟩)
  · cases hz : zero_mask r
    · exact Or.inl ⟨rfl, rfl, by simp [invalid_mask, hv, hz]⟩
    · exact absurd ⟨hv, hz⟩ (valid_mask_not_zero r)

/-- The three partition sizes sum to the input size. -/
theorem partition_length_sum (rs : List Record) :
    (df_valid rs).length + (df_zero rs).length + (df_invalid rs).length = rs.length := by
  induction rs with
  | nil => rfl
  | cons a t ih =>
      simp only [df_valid, df_zero, df_invalid, List.filter_cons] at ih ⊢
      rcases mask_trichotomy a with ⟨h1, h2, h3⟩ | ⟨h1, h2, h3⟩ | ⟨h1, h2, h3⟩ <;>
        simp [h1, h2, h3] <;> omega

/-! ## The end-to-end scenario of §8 of the specification -/

/-- The five scenario records, with coordinate texts
`[(0,0), ("abc","abc"), (200,0), (10,20), (10.5,20.5)]`. -/
def scenarioRecords : List Record :=
  [Record.mk (some "0") (some "0"),
   Record.mk (some "abc") (some "abc"),
   Record.mk (some "200") (some "0"),
   Record.mk (some "10") (some "20"),
   Record.mk (some "10.5") (some "20.5")]

/-- The scenario boundary: the square with corners (10, 20) and (11, 21). -/
def scenarioRect : Rect := ⟨⟨10, 0⟩, ⟨20, 0⟩, ⟨11, 0⟩, ⟨21, 0⟩⟩

/-! ## Claim theorems -/

/-- C1: the classification partitions the records totally and exclusively:
the three partition sizes sum to the total count, every record satisfies
exactly one of the three masks, and every valid record's attached
`location_status` is exactly one of Inside/Outside (which are distinct);
Zero and Invalid rows carry no status by construction of `ResultBundle`. -/
theorem C1_partition_total_and_exclusive
    (rs : List Record) (r : Record) (b : Rect) (s : ContainmentStatus) :
    (df_valid rs).length + (df_zero rs).length + (df_invalid rs).length = rs.length
    ∧ ((valid_mask r = true ∧ zero_mask r = false ∧ invalid_mask r = false)
        ∨ (valid_mask r = false ∧ zero_mask r = true ∧ invalid_mask r = false)
        ∨ (valid_mask r = false ∧ zero_mask r = false ∧ invalid_mask r = true))
    ∧ (location_status r b = ContainmentStatus.Inside
        ∨ location_status r b = ContainmentStatus.Outside)
    ∧ (s = ContainmentStatus.Inside ∨ s = ContainmentStatus.Outside)
    ∧ decide (ContainmentStatus.Inside = ContainmentStatus.Outside) = false := by
  refine ⟨partition_length_sum rs, mask_trichotomy r, ?_, ?_, by decide⟩
  · unfold location_status
    split
    · exact Or.inl rfl
    · exact Or.inr rfl
  · cases s
    · exact Or.inl rfl
    · exact Or.inr rfl

/-- C2 counterexample: on the five-record scenario with the square boundary
`[(10,20)-(11,21)]`, the pipeline does NOT produce the claimed partition in
which row 3 (the point (10, 20)) is Inside: (10, 20) is a corner of the
square, and shapely `within` excludes the boundary. -/
theorem C2_scenario_counterexample :
    decide (runAnalysis scenarioRecords scenarioRect =
      PipelineOutcome.results
        { gdf_points := [(Record.mk (some "10") (some "20"), ContainmentStatus.Inside),
                         (Record.mk (some "10.5") (some "20.5"), ContainmentStatus.Inside)]
          df_invalid := [Record.mk (some "abc") (some "abc"),
                         Record.mk (some "200") (some "0")]
          df_zero := [Record.mk (some "0") (some "0")]
          df_raw_len := 5 }) = false := by
  decide

/-- C2 (amended): on the five-record scenario the pipeline produces exactly
Zero = {row 0}, Invalid = {rows 1, 2}, Valid = {row 3 with status Outside,
row 4 with status Inside}, and total count 5 — row 3's point (10, 20) lies on
the square's boundary, which `within` does not count as inside. -/
theorem C2_scenario_amended :
    runAnalysis scenarioRecords scenarioRect =
      PipelineOutcome.results
        { gdf_points := [(Record.mk (some "10") (some "20"), ContainmentStatus.Outside),
                         (Record.mk (some "10.5") (some "20.5"), ContainmentStatus.Inside)]
          df_invalid := [Record.mk (some "abc") (some "abc"),
                         Record.mk (some "200") (some "0")]
          df_zero := [Record.mk (some "0") (some "0")]
          df_raw_len := 5 } := by
  decide

/-- C3: a record whose two coordinate fields both parse to exactly 0.0 is
classified Zero and not Valid (nor Invalid): the zero rule takes precedence
over the range rule, `valid_mask` containing `~zero_mask`. -/
theorem C3_zero_precedence (r : Record) (x y : DecNum)
    (hx : cleanX r = some x) (hy : cleanY r = some y)
    (h0x : x.toRat = 0) (h0y : y.toRat = 0) :
    zero_mask r = true ∧ valid_mask r = false ∧ invalid_mask r = false := by
  have hzx : DecNum.beq x ⟨0, 0⟩ = true := by
    rw [DecNum.beq_iff, DecNum.toRat_zero, h0x]
  have hzy : DecNum.beq y ⟨0, 0⟩ = true := by
    rw [DecNum.beq_iff, DecNum.toRat_zero, h0y]
  have hz : zero_mask r = true := by simp [zero_mask, hx, hy, optBeq, hzx, hzy]
  have hv : valid_mask r = false := by simp [valid_mask, hz]
  exact ⟨hz, hv, by simp [invalid_mask, hz]⟩

/-- C3 witness: the record with texts ("0", "0") parses to (0, 0) and is
classified Zero, not Valid. -/
theorem C3_zero_precedence_witness :
    cleanX (Record.mk (some "0") (some "0")) = some ⟨0, 0⟩
    ∧ cleanY (Record.mk (some "0") (some "0")) = some ⟨0, 0⟩
    ∧ (DecNum.mk 0 0).toRat = 0
    ∧ (zero_mask (Record.mk (some "0") (some "0")) = true
        ∧ valid_mask (Record.mk (some "0") (some "0")) = false
        ∧ invalid_mask (Record.mk (some "0") (some "0")) = false) :=
  ⟨rfl, rfl, DecNum.toRat_zero,
    C3_zero_precedence (Record.mk (some "0") (some "0")) ⟨0, 0⟩ ⟨0, 0⟩ rfl rfl
      DecNum.toRat_zero DecNum.toRat_zero⟩

/-- C4: a record parsing to a non-(0,0) numeric pair (x, y) is Valid exactly
when x ∈ [-180, 180] and y ∈ [-90, 90], endpoints included; in particular
(180, 90) and (-180, -90) are Valid while (180.0001, 0) is Invalid. -/
theorem C4_range_inclusive (r : Record) (x y : DecNum)
    (hx : cleanX r = some x) (hy : cleanY r = some y)
    (hnz : ¬(x.toRat = 0 ∧ y.toRat = 0)) :
    (valid_mask r = true ↔
      (-180 ≤ x.toRat ∧ x.toRat ≤ 180 ∧ -90 ≤ y.toRat ∧ y.toRat ≤ 90))
    ∧ valid_mask (Record.mk (some "180") (some "90")) = true
    ∧ valid_mask (Record.mk (some "-180") (some "-90")) = true
    ∧ valid_mask (Record.mk (some "180.0001") (some "0")) = false
    ∧ invalid_mask (Record.mk (some "180.0001") (some "0")) = true := by
  refine ⟨?_, by decide, by decide, by decide, by decide⟩
  have hz : zero_mask r = false := by
    by_contra hzz
    rw [Bool.not_eq_false] at hzz
    simp only [zero_mask, hx, hy, optBeq, Bool.and_eq_true] at hzz
    obtain ⟨hbx, hby⟩ := hzz
    rw [DecNum.beq_iff, DecNum.toRat_zero] at hbx hby
    exact hnz ⟨hbx, hby⟩
  simp only [valid_mask, valid_range_mask, betweenOpt, hx, hy, hz, Option.isSome_some,
    Bool.not_false, Bool.and_true, Bool.and_eq_true]
  rw [DecNum.ble_iff, DecNum.ble_iff, DecNum.ble_iff, DecNum.ble_iff,
    DecNum.toRat_int, DecNum.toRat_int, DecNum.toRat_int, DecNum.toRat_int]
  push_cast
  tauto

/-- C4 witness: the record with texts ("180", "90") parses to (180, 90),
is not the zero pair, and the validity equivalence holds there. -/
theorem C4_range_inclusive_witness :
    cleanX (Record.mk (some "180") (some "90")) = some ⟨180, 0⟩
    ∧ cleanY (Record.mk (some "180") (some "90")) = some ⟨90, 0⟩
    ∧ ¬((DecNum.mk 180 0).toRat = 0 ∧ (DecNum.mk 90 0).toRat = 0)
    ∧ (valid_mask (Record.mk (some "180") (some "90")) = true ↔
        (-180 ≤ (DecNum.mk 180 0).toRat ∧ (DecNum.mk 180 0).toRat ≤ 180
          ∧ -90 ≤ (DecNum.mk 90 0).toRat ∧ (DecNum.mk 90 0).toRat ≤ 90)) :=
  ⟨rfl, rfl, by norm_num [DecNum.toRat],
    (C4_range_inclusive (Record.mk (some "180") (some "90")) ⟨180, 0⟩ ⟨90, 0⟩ rfl rfl
      (by norm_num [DecNum.toRat])).1⟩

/-- C5: a record with a NaN coordinate on either axis (including the result
of a failed parse) is classified Invalid, never Valid or Zero. -/
theorem C5_nan_invalid (r : Record)
    (h : cleanX r = none ∨ cleanY r = none) :
    zero_mask r = false ∧ valid_mask r = false ∧ invalid_mask r = true := by
  have hz : zero_mask r = false := by
    rcases h with h | h <;> simp [zero_mask, h, optBeq]
  have hv : valid_mask r = false := by
    rcases h with h | h <;> simp [valid_mask, valid_range_mask, betweenOpt, h]
  exact ⟨hz, hv, by simp [invalid_mask, hz, hv]⟩

/-- C5 witness: the record with unparsable texts ("abc", "abc") is
classified Invalid, never Valid or Zero. -/
theorem C5_nan_invalid_witness :
    (cleanX (Record.mk (some "abc") (some "abc")) = none
      ∨ cleanY (Record.mk (some "abc") (some "abc")) = none)
    ∧ (zero_mask (Record.mk (some "abc") (some "abc")) = false
        ∧ valid_mask (Record.mk (some "abc") (some "abc")) = false
        ∧ invalid_mask (Record.mk (some "abc") (some "abc")) = true) :=
  ⟨Or.inl rfl, C5_nan_invalid (Record.mk (some "abc") (some "abc")) (Or.inl rfl)⟩

/-- C6: `clean_coord` maps a null cell to Unparsed; on text it strips
whitespace, replaces every ',' with '.', and attempts numeric conversion,
returning Unparsed on any failure (it is a total function, so no exception
reaches the caller); in particular "45,123" parses to the number 45.123. -/
theorem C6_parse_normalization (s : String) :
    clean_coord none = none
    ∧ clean_coord (some s) = pyFloat (commaToDot (stripChars s.data))
    ∧ clean_coord (some "") = none
    ∧ clean_coord (some "N/A") = none
    ∧ clean_coord (some " 10.5 ") = some ⟨105, 1⟩
    ∧ ∃ d : DecNum, clean_coord (some "45,123") = some d ∧ d.toRat = 45123 / 1000 :=
  ⟨rfl, rfl, rfl, rfl, rfl, ⟨⟨45123, 3⟩, rfl, by norm_num [DecNum.toRat]⟩⟩

/-- C7: when the Valid partition is empty the pipeline reports the
distinguished "no valid data" outcome — not a `results` bundle, and no
containment test runs. -/
theorem C7_empty_valid_skips_containment (rs : List Record) (b : Rect)
    (h : df_valid rs = []) :
    runAnalysis rs b =
      PipelineOutcome.noValidData
        "No valid data found (check if all your data is 0,0 or invalid)."
    ∧ (runAnalysis rs b).isResults = false := by
  have hmain : runAnalysis rs b =
      PipelineOutcome.noValidData
        "No valid data found (check if all your data is 0,0 or invalid)." := by
    simp [runAnalysis, h]
  exact ⟨hmain, by rw [hmain]; rfl⟩

/-- C7 witness: a single (0, 0) record leaves the Valid partition empty, and
the run reports the "no valid data" outcome. -/
theorem C7_empty_valid_witness :
    df_valid [Record.mk (some "0") (some "0")] = []
    ∧ (runAnalysis [Record.mk (some "0") (some "0")] scenarioRect =
        PipelineOutcome.noValidData
          "No valid data found (check if all your data is 0,0 or invalid)."
      ∧ (runAnalysis [Record.mk (some "0") (some "0")] scenarioRect).isResults = false) :=
  ⟨by decide,
    C7_empty_valid_skips_containment [Record.mk (some "0") (some "0")] scenarioRect
      (by decide)⟩

/-- C8: a boundary-geometry read failure surfaces as the fatal run-level
error (`st.error` + `st.stop`) and never yields per-point classification
results; classification runs only on a successfully read boundary. -/
theorem C8_boundary_failure_fatal (e : String) (rs : List Record) :
    processFiles (Except.error e) rs
        = PipelineOutcome.fatalError ("Error reading GeoJSON: " ++ e)
    ∧ (processFiles (Except.error e) rs).isResults = false
    ∧ (∀ b : Rect, processFiles (Except.ok b) rs = runAnalysis rs b) :=
  ⟨rfl, rfl, fun _ => rfl⟩

/-- C9: each output partition is a sublist of the input sequence, so it
preserves the original relative ordering of its records. -/
theorem C9_order_preservation (rs : List Record) :
    List.Sublist (df_valid rs) rs
    ∧ List.Sublist (df_zero rs) rs
    ∧ List.Sublist (df_invalid rs) rs :=
  ⟨List.filter_sublist rs, List.filter_sublist rs, List.filter_sublist rs⟩

/-- C10: a valid record whose point lies exactly on the boundary of the
unioned polygon gets status Outside: shapely `within` is strict interior
containment, so on-edge points are not Inside. -/
theorem C10_boundary_point_outside (r : Record) (b : Rect) (x y : DecNum)
    (_hval : valid_mask r = true)
    (hx : cleanX r = some x) (hy : cleanY r = some y)
    (hb : onRectBoundary x y b = true) :
    location_status r b = ContainmentStatus.Outside := by
  have hw : withinRect x y b = false := by
    by_contra hww
    rw [Bool.not_eq_false] at hww
    simp only [withinRect, Bool.and_eq_true] at hww
    obtain ⟨⟨⟨h1, h2⟩, h3⟩, h4⟩ := hww
    rw [DecNum.blt_iff] at h1 h2 h3 h4
    simp only [onRectBoundary, Bool.or_eq_true, Bool.and_eq_true] at hb
    rcases hb with ⟨⟨hxe | hxe, -⟩, -⟩ | ⟨⟨hye | hye, -⟩, -⟩
    · rw [DecNum.beq_iff] at hxe
      linarith
    · rw [DecNum.beq_iff] at hxe
      linarith
    · rw [DecNum.beq_iff] at hye
      linarith
    · rw [DecNum.beq_iff] at hye
      linarith
  simp [location_status, hx, hy, hw]

/-- C10 witness: the valid record (10, 20) sits on the corner of the square
with corners (10, 20) and (11, 21), and its status is Outside. -/
theorem C10_boundary_point_witness :
    valid_mask (Record.mk (some "10") (some "20")) = true
    ∧ cleanX (Record.mk (some "10") (some "20")) = some ⟨10, 0⟩
    ∧ cleanY (Record.mk (some "10") (some "20")) = some ⟨20, 0⟩
    ∧ onRectBoundary ⟨10, 0⟩ ⟨20, 0⟩ scenarioRect = true
    ∧ location_status (Record.mk (some "10") (some "20")) scenarioRect
        = ContainmentStatus.Outside :=
  ⟨by decide, rfl, rfl, by decide,
    C10_boundary_point_outside (Record.mk (some "10") (some "20")) scenarioRect
      ⟨10, 0⟩ ⟨20, 0⟩ (by decide) rfl rfl (by decide)⟩
